import Mathlib

/-!
Shallow embedding of the volume GPU batch cache of
`src/source/blender/draw/intern/draw_cache_impl_volume.cc`.

GPU handles (textures, vertex buffers, index buffers, batches) are modelled
as natural-number identifiers drawn from a counter that is threaded through
the operations.  Calls into external collaborators (the volumetric data
backend and the GPU driver, spec section 6) are recorded as events in a
trace, so that statements such as "no backend call is made" or "the voxel
buffer is freed exactly once" become statements about the trace.  The
behaviour of the collaborators themselves is supplied as a `Backend`
parameter.
-/

namespace DrawVolume

/-- Coordinates of one vertex as handed over by the traversal callback.
The numeric content of the `float` coordinates is abstracted to integers;
no cache operation computes with it. -/
abbrev VertPos := Int × Int × Int

/-- A 4x4 transform (`float4x4`); numeric content abstracted to integers. -/
abbrev Mat4 := List (List Int)

/-- The zero matrix a `MEM_callocN`-allocated `DRWVolumeGrid` starts with. -/
def mat4Zero : Mat4 := [[0,0,0,0],[0,0,0,0],[0,0,0,0],[0,0,0,0]]

/-- GPU primitive types used by this file (`GPU_PRIM_POINTS`,
`GPU_PRIM_LINES`, `GPU_PRIM_TRIS`). -/
inductive GPUPrimType
  | points
  | lines
  | tris
deriving DecidableEq

/-- The two texture formats selected by `volume_grid_cache_get`
(`SFLOAT_16` for one channel, `SFLOAT_16_16_16` for three). -/
inductive TextureFormat
  | SFLOAT_16
  | SFLOAT_16_16_16
deriving DecidableEq

/-- Sampler extend modes; only `GPU_SAMPLER_EXTEND_MODE_CLAMP_TO_BORDER`
occurs in this file. -/
inductive ExtendMode
  | clampToBorder
deriving DecidableEq

/-- Observable calls into the GPU abstraction and the volume backend. -/
inductive Event
  | loadVolume
  | denseFloatsCall
  | texCreate3d (id : Nat) (fmt : TextureFormat) (res : Nat × Nat × Nat)
  | texCreateFail (res : Nat × Nat × Nat)
  | swizzleSet (id : Nat) (sw : String)
  | extendModeSet (id : Nat) (m : ExtendMode)
  | denseGridClear (voxels : Nat)
  | memFreeVoxels (voxels : Nat)
  | printError
  | freeTexture (id : Nat)
  | freeGridName (name : String)
  | freeGridList
  | discardVertBuf (id : Nat)
  | discardBatch (id : Nat)
  | activeGridGet
  | wireTraverse
  | vertbufCreate (id : Nat)
  | batchCreate (id : Nat)
  | assertFail
deriving DecidableEq

/-- One cached grid (`DRWVolumeGrid`): name key, optional 3D texture and
the texture/object transforms.  The struct is allocated zeroed. -/
structure DRWVolumeGrid where
  name : String
  texture : Option Nat
  texture_to_object : Mat4
  object_to_texture : Mat4
deriving DecidableEq

/-- Contents of a vertex buffer: either the position+constant-normal buffer
built by the wireframe callback (with the high-quality-normals layout flag),
or the per-vertex wire-pattern buffer (`DRW_vertbuf_create_wiredata`). -/
inductive VertBufContent
  | posNor (hq : Bool) (positions : List VertPos) (normalFill : VertPos)
  | wiredata (len : Nat)
deriving DecidableEq

/-- A GPU vertex buffer: handle plus contents. -/
structure VertBuf where
  id : Nat
  content : VertBufContent
deriving DecidableEq

/-- A line index buffer: the list of vertex-index pairs added, in order. -/
structure IndexBufLines where
  lineVerts : List (Nat × Nat)
deriving DecidableEq

/-- A GPU batch: primitive type, attached vertex buffers (first the
position buffer, then any added buffers), optional index buffer and the
ownership flag for it. -/
structure GPUBatch where
  id : Nat
  prim : GPUPrimType
  verts : List VertBuf
  ibo : Option IndexBufLines
  ownsIbo : Bool
deriving DecidableEq

/-- The `face_wire` sub-struct of the cache. -/
structure FaceWire where
  pos_nor_in_order : Option VertBuf
  batch : Option GPUBatch
deriving DecidableEq

/-- `VolumeBatchCache`: grid entries, wireframe geometry, selection
surface, dirty flag. -/
structure VolumeBatchCache where
  grids : List DRWVolumeGrid
  face_wire : FaceWire
  selection_surface : Option GPUBatch
  is_dirty : Bool
deriving DecidableEq

/-- `Volume.display.wireframe_type` values used by this file. -/
inductive VolumeWireframeType
  | NONE
  | POINTS
  | LINES
deriving DecidableEq

/-- The display settings of a volume that this file reads. -/
structure VolumeDisplay where
  wireframe_type : VolumeWireframeType
deriving DecidableEq

/-- A volume object: its (possibly absent) batch cache and display
settings. -/
structure Volume where
  batch_cache : Option VolumeBatchCache
  display : VolumeDisplay
deriving DecidableEq

/-- Result of `BKE_volume_grid_dense_floats`: resolution, a handle for the
backend-owned flat voxel buffer, and the texture-to-object transform. -/
structure DenseFloatVolumeGrid where
  resolution : Nat × Nat × Nat
  voxels : Nat
  texture_to_object : Mat4
deriving DecidableEq

/-- External collaborators (spec section 6), supplied as parameters: the
grid's name and channel count, the outcome of the dense-float conversion,
whether 3D texture creation succeeds at a given resolution (it fails when
an axis exceeds `GL_MAX_3D_TEXTURE_SIZE`), matrix inversion, the active
grid query, the vertex/edge data the wireframe traversal hands the
callback, and the high-quality-normals setting. -/
structure Backend where
  gridName : String
  channels : Nat
  denseFloats : Option DenseFloatVolumeGrid
  texCreateOk : Nat × Nat × Nat → Bool
  invert : Mat4 → Mat4
  activeGrid : Bool
  wireVerts : List VertPos
  wireEdges : List (Nat × Nat)
  hqNormals : Bool

/-- The zeroed cache produced by `volume_batch_cache_init`
(`MEM_callocN` / `memset` then `is_dirty = false`). -/
def emptyCache : VolumeBatchCache :=
  { grids := []
    face_wire := { pos_nor_in_order := none, batch := none }
    selection_surface := none
    is_dirty := false }

/-- `volume_batch_cache_valid`: the cache exists and is not dirty. -/
def volume_batch_cache_valid (volume : Volume) : Bool :=
  match volume.batch_cache with
  | some cache => cache.is_dirty == false
  | none => false

/-- `volume_batch_cache_init`: allocate a zeroed cache if absent, else
zero the existing one; clear the dirty flag.  Either way the cache ends
up as `emptyCache`. -/
def volume_batch_cache_init (volume : Volume) : Volume :=
  { volume with batch_cache := some emptyCache }

/-- The free/discard events `volume_batch_cache_clear` emits for one grid
entry: `MEM_SAFE_FREE(grid->name)` and, when the texture is non-null,
`GPU_TEXTURE_FREE_SAFE(grid->texture)`. -/
def gridClearEvents (g : DRWVolumeGrid) : List Event :=
  Event.freeGridName g.name ::
    (match g.texture with
     | some t => [Event.freeTexture t]
     | none => [])

/-- `volume_batch_cache_clear`: no-op when the cache is absent; otherwise
free every grid entry (name and texture), free the list, and discard the
wireframe vertex buffer, wireframe batch and selection batch.  The
`_SAFE` macros null the freed fields; `BLI_freelistN` empties the list;
the dirty flag is not touched here. -/
def volume_batch_cache_clear (volume : Volume) : Volume × List Event :=
  match volume.batch_cache with
  | none => (volume, [])
  | some cache =>
    let gridEvents := cache.grids.flatMap gridClearEvents
    let wireEvents :=
      (match cache.face_wire.pos_nor_in_order with
       | some vb => [Event.discardVertBuf vb.id]
       | none => []) ++
      (match cache.face_wire.batch with
       | some b => [Event.discardBatch b.id]
       | none => []) ++
      (match cache.selection_surface with
       | some b => [Event.discardBatch b.id]
       | none => [])
    let cleared : VolumeBatchCache :=
      { grids := []
        face_wire := { pos_nor_in_order := none, batch := none }
        selection_surface := none
        is_dirty := cache.is_dirty }
    ({ volume with batch_cache := some cleared },
     gridEvents ++ [Event.freeGridList] ++ wireEvents)

/-- `DRW_volume_batch_cache_validate`: if the cache is not valid, clear it
and reinitialize it. -/
def DRW_volume_batch_cache_validate (volume : Volume) : Volume × List Event :=
  if volume_batch_cache_valid volume then (volume, [])
  else
    let step := volume_batch_cache_clear volume
    (volume_batch_cache_init step.1, step.2)

/-- `volume_batch_cache_get`: validate, then return the (now necessarily
present) cache. -/
def volume_batch_cache_get (volume : Volume) :
    VolumeBatchCache × Volume × List Event :=
  let step := DRW_volume_batch_cache_validate volume
  (step.1.batch_cache.getD emptyCache, step.1, step.2)

/-- Modelled from the spec: `BKE_VOLUME_BATCH_DIRTY_ALL`, the single
invalidation reason code in scope, declared in a header outside this
excerpt. -/
def BKE_VOLUME_BATCH_DIRTY_ALL : Int := 0

/-- `DRW_volume_batch_cache_dirty_tag`: return immediately when no cache
exists; set the dirty flag for `BKE_VOLUME_BATCH_DIRTY_ALL`; any other
mode hits `BLI_assert(0)`, recorded as an `assertFail` event. -/
def DRW_volume_batch_cache_dirty_tag (volume : Volume) (mode : Int) :
    Volume × List Event :=
  match volume.batch_cache with
  | none => (volume, [])
  | some cache =>
    if mode == BKE_VOLUME_BATCH_DIRTY_ALL then
      ({ volume with batch_cache := some { cache with is_dirty := true } }, [])
    else
      (volume, [Event.assertFail])

/-- The predicate of the linear scan in `volume_grid_cache_get`:
`cache_grid->name == name`. -/
def gridNamePred (env : Backend) (g : DRWVolumeGrid) : Bool :=
  g.name == env.gridName

/-- `volume_grid_cache_get`: return the cached entry when the linear scan
finds the grid's name; otherwise append a zeroed entry carrying the name,
call `BKE_volume_load`, bail out (entry kept, texture null) for channel
counts other than 1 and 3, else request the dense floats.  When they are
available, store the transforms, try to create the 3D texture (`SFLOAT_16`
for one channel, `SFLOAT_16_16_16` for three): on success set the swizzle
(`rrr1` / `rgb1`) and border-clamp extend mode and release the dense grid;
on failure free the voxel buffer with `MEM_freeN` and print an error.
Returns the entry, the updated cache, the handle counter and the trace. -/
def volume_grid_cache_get (env : Backend) (cache : VolumeBatchCache)
    (nextId : Nat) : DRWVolumeGrid × VolumeBatchCache × Nat × List Event :=
  match cache.grids.find? (gridNamePred env) with
  | some cache_grid => (cache_grid, cache, nextId, [])
  | none =>
    let g0 : DRWVolumeGrid :=
      { name := env.gridName, texture := none
        texture_to_object := mat4Zero, object_to_texture := mat4Zero }
    if env.channels != 1 && env.channels != 3 then
      (g0, { cache with grids := cache.grids ++ [g0] }, nextId,
       [Event.loadVolume])
    else
      match env.denseFloats with
      | none =>
        (g0, { cache with grids := cache.grids ++ [g0] }, nextId,
         [Event.loadVolume, Event.denseFloatsCall])
      | some dense_grid =>
        let t2o := dense_grid.texture_to_object
        let o2t := env.invert t2o
        let fmt := if env.channels == 3 then TextureFormat.SFLOAT_16_16_16
                   else TextureFormat.SFLOAT_16
        if env.texCreateOk dense_grid.resolution then
          let tex := nextId
          let sw := if env.channels == 3 then "rgb1" else "rrr1"
          let g1 : DRWVolumeGrid :=
            { name := env.gridName, texture := some tex
              texture_to_object := t2o, object_to_texture := o2t }
          (g1, { cache with grids := cache.grids ++ [g1] }, nextId + 1,
           [Event.loadVolume, Event.denseFloatsCall,
            Event.texCreate3d tex fmt dense_grid.resolution,
            Event.swizzleSet tex sw,
            Event.extendModeSet tex ExtendMode.clampToBorder,
            Event.denseGridClear dense_grid.voxels])
        else
          let g1 : DRWVolumeGrid :=
            { name := env.gridName, texture := none
              texture_to_object := t2o, object_to_texture := o2t }
          (g1, { cache with grids := cache.grids ++ [g1] }, nextId,
           [Event.loadVolume, Event.denseFloatsCall,
            Event.texCreateFail dense_grid.resolution,
            Event.memFreeVoxels dense_grid.voxels,
            Event.printError])

/-- `DRW_volume_batch_cache_get_grid`: validate the cache, run the
materializer, and return the entry only when its texture is non-null
(else null). -/
def DRW_volume_batch_cache_get_grid (env : Backend) (volume : Volume)
    (nextId : Nat) :
    Option DRWVolumeGrid × Volume × Nat × List Event :=
  let got := volume_batch_cache_get volume
  let built := volume_grid_cache_get env got.1 nextId
  ((if built.1.texture.isSome then some built.1 else none),
   { got.2.1 with batch_cache := some built.2.1 },
   built.2.2.1,
   got.2.2 ++ built.2.2.2)

/-- `drw_volume_wireframe_cb`: build the position+constant-normal vertex
buffer (layout chosen by the high-quality-normals setting, normal filled
with the constant (1,0,0)), the wire-pattern vertex buffer sized to the
vertex count, then a point batch (no index buffer) for wireframe mode
"points" or a line batch owning an index buffer with one line per edge in
order; store the vertex buffer and batch in the cache and attach the
wire-pattern buffer to the batch. -/
def drw_volume_wireframe_cb (env : Backend) (volume : Volume)
    (verts : List VertPos) (edges : List (Nat × Nat)) (nextId : Nat) :
    Volume × Nat × List Event :=
  let cache := volume.batch_cache.getD emptyCache
  let pos_nor_in_order : VertBuf :=
    { id := nextId
      content := VertBufContent.posNor env.hqNormals verts (1, 0, 0) }
  let vbo_wiredata : VertBuf :=
    { id := nextId + 1, content := VertBufContent.wiredata verts.length }
  let batch : GPUBatch :=
    if volume.display.wireframe_type == VolumeWireframeType.POINTS then
      { id := nextId + 2, prim := GPUPrimType.points
        verts := [pos_nor_in_order, vbo_wiredata]
        ibo := none, ownsIbo := false }
    else
      { id := nextId + 2, prim := GPUPrimType.lines
        verts := [pos_nor_in_order, vbo_wiredata]
        ibo := some { lineVerts := edges }, ownsIbo := true }
  let cache2 : VolumeBatchCache :=
    { cache with
      face_wire := { pos_nor_in_order := some pos_nor_in_order
                     batch := some batch } }
  ({ volume with batch_cache := some cache2 }, nextId + 3,
   [Event.vertbufCreate nextId, Event.vertbufCreate (nextId + 1),
    Event.batchCreate (nextId + 2)])

/-- `DRW_volume_batch_cache_get_wireframes_face`: return null immediately
for wireframe mode "none"; otherwise validate the cache and, when no
wireframe batch is cached yet, query the active grid (null grid gives
null) and run the wireframe traversal, which invokes the callback with the
backend-supplied vertices and edges; finally return the cached batch. -/
def DRW_volume_batch_cache_get_wireframes_face (env : Backend)
    (volume : Volume) (nextId : Nat) :
    Option GPUBatch × Volume × Nat × List Event :=
  if volume.display.wireframe_type == VolumeWireframeType.NONE then
    (none, volume, nextId, [])
  else
    let got := volume_batch_cache_get volume
    match got.1.face_wire.batch with
    | some b => (some b, got.2.1, nextId, got.2.2)
    | none =>
      if env.activeGrid then
        let cb := drw_volume_wireframe_cb env got.2.1 env.wireVerts
            env.wireEdges nextId
        ((cb.1.batch_cache.getD emptyCache).face_wire.batch,
         cb.1, cb.2.1,
         got.2.2 ++ [Event.activeGridGet, Event.wireTraverse] ++ cb.2.2)
      else
        (none, got.2.1, nextId, got.2.2 ++ [Event.activeGridGet])

/-! ### Helper lemmas -/

lemma validate_of_valid (v : Volume) (h : volume_batch_cache_valid v = true) :
    DRW_volume_batch_cache_validate v = (v, []) := by
  unfold DRW_volume_batch_cache_validate
  rw [if_pos h]

lemma validate_valid (v : Volume) :
    volume_batch_cache_valid (DRW_volume_batch_cache_validate v).1 = true := by
  unfold DRW_volume_batch_cache_validate
  split
  · next h => simpa using h
  · simp [volume_batch_cache_init, volume_batch_cache_valid, emptyCache]

lemma validate_batch_cache (v : Volume) :
    ∃ c, (DRW_volume_batch_cache_validate v).1.batch_cache = some c ∧
      c.is_dirty = false := by
  have h := validate_valid v
  unfold volume_batch_cache_valid at h
  cases hc : (DRW_volume_batch_cache_validate v).1.batch_cache with
  | none => rw [hc] at h; cases h
  | some c =>
    rw [hc] at h
    exact ⟨c, rfl, by simpa using h⟩

lemma grid_get_eq_hit (env : Backend) (c : VolumeBatchCache) (n : Nat)
    (g : DRWVolumeGrid) (h : c.grids.find? (gridNamePred env) = some g) :
    volume_grid_cache_get env c n = (g, c, n, []) := by
  unfold volume_grid_cache_get
  rw [h]

lemma channels_cond_false (env : Backend)
    (hch : env.channels = 1 ∨ env.channels = 3) :
    (env.channels != 1 && env.channels != 3) = false := by
  rcases hch with h | h <;> simp [h]

lemma grid_get_eq_unsupported (env : Backend) (c : VolumeBatchCache) (n : Nat)
    (hmiss : c.grids.find? (gridNamePred env) = none)
    (h1 : env.channels ≠ 1) (h3 : env.channels ≠ 3) :
    volume_grid_cache_get env c n =
      ({ name := env.gridName, texture := none
         texture_to_object := mat4Zero, object_to_texture := mat4Zero },
       { c with grids := c.grids ++
           [{ name := env.gridName, texture := none
              texture_to_object := mat4Zero, object_to_texture := mat4Zero }] },
       n, [Event.loadVolume]) := by
  have hcond : (env.channels != 1 && env.channels != 3) = true := by
    simp [bne_iff_ne, h1, h3]
  unfold volume_grid_cache_get
  rw [hmiss]
  simp only [hcond, if_true]

lemma grid_get_eq_nodense (env : Backend) (c : VolumeBatchCache) (n : Nat)
    (hmiss : c.grids.find? (gridNamePred env) = none)
    (hch : env.channels = 1 ∨ env.channels = 3)
    (hd : env.denseFloats = none) :
    volume_grid_cache_get env c n =
      ({ name := env.gridName, texture := none
         texture_to_object := mat4Zero, object_to_texture := mat4Zero },
       { c with grids := c.grids ++
           [{ name := env.gridName, texture := none
              texture_to_object := mat4Zero, object_to_texture := mat4Zero }] },
       n, [Event.loadVolume, Event.denseFloatsCall]) := by
  unfold volume_grid_cache_get
  rw [hmiss]
  simp only [channels_cond_false env hch, Bool.false_eq_true, if_false, hd]

lemma grid_get_eq_ok (env : Backend) (c : VolumeBatchCache) (n : Nat)
    (dg : DenseFloatVolumeGrid)
    (hmiss : c.grids.find? (gridNamePred env) = none)
    (hch : env.channels = 1 ∨ env.channels = 3)
    (hd : env.denseFloats = some dg)
    (hok : env.texCreateOk dg.resolution = true) :
    volume_grid_cache_get env c n =
      ({ name := env.gridName, texture := some n
         texture_to_object := dg.texture_to_object
         object_to_texture := env.invert dg.texture_to_object },
       { c with grids := c.grids ++
           [{ name := env.gridName, texture := some n
              texture_to_object := dg.texture_to_object
              object_to_texture := env.invert dg.texture_to_object }] },
       n + 1,
       [Event.loadVolume, Event.denseFloatsCall,
        Event.texCreate3d n
          (if env.channels == 3 then TextureFormat.SFLOAT_16_16_16
           else TextureFormat.SFLOAT_16) dg.resolution,
        Event.swizzleSet n (if env.channels == 3 then "rgb1" else "rrr1"),
        Event.extendModeSet n ExtendMode.clampToBorder,
        Event.denseGridClear dg.voxels]) := by
  unfold volume_grid_cache_get
  rw [hmiss]
  simp only [channels_cond_false env hch, Bool.false_eq_true, if_false, hd,
    hok, if_true]

lemma grid_get_eq_fail (env : Backend) (c : VolumeBatchCache) (n : Nat)
    (dg : DenseFloatVolumeGrid)
    (hmiss : c.grids.find? (gridNamePred env) = none)
    (hch : env.channels = 1 ∨ env.channels = 3)
    (hd : env.denseFloats = some dg)
    (hfail : env.texCreateOk dg.resolution = false) :
    volume_grid_cache_get env c n =
      ({ name := env.gridName, texture := none
         texture_to_object := dg.texture_to_object
         object_to_texture := env.invert dg.texture_to_object },
       { c with grids := c.grids ++
           [{ name := env.gridName, texture := none
              texture_to_object := dg.texture_to_object
              object_to_texture := env.invert dg.texture_to_object }] },
       n,
       [Event.loadVolume, Event.denseFloatsCall,
        Event.texCreateFail dg.resolution,
        Event.memFreeVoxels dg.voxels,
        Event.printError]) := by
  unfold volume_grid_cache_get
  rw [hmiss]
  simp only [channels_cond_false env hch, Bool.false_eq_true, if_false, hd,
    hfail]

lemma grid_get_miss_shape (env : Backend) (c : VolumeBatchCache) (n : Nat)
    (h : c.grids.find? (gridNamePred env) = none) :
    (volume_grid_cache_get env c n).2.1 =
      { c with grids := c.grids ++ [(volume_grid_cache_get env c n).1] } ∧
    gridNamePred env (volume_grid_cache_get env c n).1 = true := by
  unfold volume_grid_cache_get
  rw [h]
  dsimp only
  split
  · exact ⟨rfl, by simp [gridNamePred]⟩
  · split
    · exact ⟨rfl, by simp [gridNamePred]⟩
    · split
      · exact ⟨rfl, by simp [gridNamePred]⟩
      · exact ⟨rfl, by simp [gridNamePred]⟩

lemma find?_append_singl {l : List DRWVolumeGrid} {p : DRWVolumeGrid → Bool}
    (h : l.find? p = none) {g : DRWVolumeGrid} (hg : p g = true) :
    (l ++ [g]).find? p = some g := by
  rw [List.find?_append, h, Option.none_or]
  simp [List.find?, hg]

/-! ### Claim theorems -/

/-- C2: if a volume's cache exists and is dirty, the next
`DRW_volume_batch_cache_validate` releases every GPU resource the cache
held — each grid texture, the wireframe vertex buffer and batch, and the
selection batch — and leaves the cache valid and empty (grid list empty,
dirty flag cleared). -/
theorem C2_validate_dirty_clears (v : Volume) (c : VolumeBatchCache)
    (hc : v.batch_cache = some c) (hd : c.is_dirty = true) :
    (DRW_volume_batch_cache_validate v).1.batch_cache = some emptyCache ∧
    (∀ g ∈ c.grids, ∀ t, g.texture = some t →
        Event.freeTexture t ∈ (DRW_volume_batch_cache_validate v).2) ∧
    (∀ vb, c.face_wire.pos_nor_in_order = some vb →
        Event.discardVertBuf vb.id ∈ (DRW_volume_batch_cache_validate v).2) ∧
    (∀ b, c.face_wire.batch = some b →
        Event.discardBatch b.id ∈ (DRW_volume_batch_cache_validate v).2) ∧
    (∀ b, c.selection_surface = some b →
        Event.discardBatch b.id ∈ (DRW_volume_batch_cache_validate v).2) := by
  have hval : volume_batch_cache_valid v = false := by
    unfold volume_batch_cache_valid
    rw [hc]
    simp [hd]
  unfold DRW_volume_batch_cache_validate
  rw [if_neg (by simp [hval])]
  unfold volume_batch_cache_clear
  rw [hc]
  dsimp only
  refine ⟨rfl, ?_, ?_, ?_, ?_⟩
  · intro g hg t ht
    simp only [List.mem_append, List.mem_flatMap]
    exact Or.inl (Or.inl ⟨g, hg, by simp [gridClearEvents, ht]⟩)
  · intro vb hvb
    rw [hvb]
    simp
  · intro b hb
    rw [hb]
    simp
  · intro b hb
    rw [hb]
    simp

/-- C3: `DRW_volume_batch_cache_validate` is idempotent — a second call
with no intervening dirty-tag returns the volume unchanged and performs no
release or reallocation (empty trace). -/
theorem C3_validate_idempotent (v : Volume) :
    DRW_volume_batch_cache_validate (DRW_volume_batch_cache_validate v).1 =
      ((DRW_volume_batch_cache_validate v).1, []) :=
  validate_of_valid _ (validate_valid v)

/-- C4: `volume_grid_cache_get` is memoized — a second call for the same
grid name with no invalidation between returns the identical entry (same
texture handle), the cache and handle counter unchanged, and an empty
trace (no rebuild); and the at-most-one-entry-per-name invariant is
preserved. -/
theorem C4_grid_get_memoized (env : Backend) (c : VolumeBatchCache) (n : Nat)
    (h : (c.grids.map DRWVolumeGrid.name).Nodup) :
    volume_grid_cache_get env
        (volume_grid_cache_get env c n).2.1
        (volume_grid_cache_get env c n).2.2.1 =
      ((volume_grid_cache_get env c n).1,
       (volume_grid_cache_get env c n).2.1,
       (volume_grid_cache_get env c n).2.2.1, []) ∧
    ((volume_grid_cache_get env c n).2.1.grids.map DRWVolumeGrid.name).Nodup := by
  cases hfind : c.grids.find? (gridNamePred env) with
  | some g =>
    rw [grid_get_eq_hit env c n g hfind]
    exact ⟨grid_get_eq_hit env c n g hfind, h⟩
  | none =>
    obtain ⟨hcache, hname⟩ := grid_get_miss_shape env c n hfind
    have hnotin :
        (volume_grid_cache_get env c n).1.name ∉
          c.grids.map DRWVolumeGrid.name := by
      intro hmem
      obtain ⟨g, hg, hEq⟩ := List.mem_map.mp hmem
      have hfalse := List.find?_eq_none.mp hfind g hg
      apply hfalse
      unfold gridNamePred at hname ⊢
      rw [hEq]
      exact hname
    have hfind2 :
        (volume_grid_cache_get env c n).2.1.grids.find? (gridNamePred env) =
          some (volume_grid_cache_get env c n).1 := by
      rw [hcache]
      exact find?_append_singl hfind hname
    refine ⟨grid_get_eq_hit env _ _ _ hfind2, ?_⟩
    rw [hcache]
    simp only [List.map_append, List.map_cons, List.map_nil]
    exact List.Nodup.append h (List.nodup_singleton _)
      (List.disjoint_singleton.mpr hnotin)

/-- C5: for a grid whose channel count is neither 1 nor 3,
`volume_grid_cache_get` never calls the dense-float conversion, and a
fresh build yields an entry with a null texture that is kept in the cache
(soft miss, no error). -/
theorem C5_unsupported_channels (env : Backend) (c : VolumeBatchCache)
    (n : Nat) (h1 : env.channels ≠ 1) (h3 : env.channels ≠ 3) :
    Event.denseFloatsCall ∉ (volume_grid_cache_get env c n).2.2.2 ∧
    (c.grids.find? (gridNamePred env) = none →
      (volume_grid_cache_get env c n).1.texture = none ∧
      (volume_grid_cache_get env c n).1 ∈
        (volume_grid_cache_get env c n).2.1.grids) := by
  cases hfind : c.grids.find? (gridNamePred env) with
  | some g =>
    rw [grid_get_eq_hit env c n g hfind]
    exact ⟨by simp, fun hx => Option.noConfusion hx⟩
  | none =>
    rw [grid_get_eq_unsupported env c n hfind h1 h3]
    exact ⟨by simp, fun _ => ⟨rfl, by simp⟩⟩

/-- C6: when the dense floats are available but 3D texture creation fails,
`volume_grid_cache_get` still returns (entry kept in the cache, texture
null), the backend-owned voxel buffer is freed exactly once, and the
failure is reported only through the diagnostic print. -/
theorem C6_texture_creation_failure (env : Backend) (c : VolumeBatchCache)
    (n : Nat) (dg : DenseFloatVolumeGrid)
    (hch : env.channels = 1 ∨ env.channels = 3)
    (hmiss : c.grids.find? (gridNamePred env) = none)
    (hd : env.denseFloats = some dg)
    (hfail : env.texCreateOk dg.resolution = false) :
    (volume_grid_cache_get env c n).1.texture = none ∧
    (volume_grid_cache_get env c n).2.2.2.count
        (Event.memFreeVoxels dg.voxels) +
      (volume_grid_cache_get env c n).2.2.2.count
        (Event.denseGridClear dg.voxels) = 1 ∧
    Event.printError ∈ (volume_grid_cache_get env c n).2.2.2 ∧
    (volume_grid_cache_get env c n).1 ∈
      (volume_grid_cache_get env c n).2.1.grids := by
  rw [grid_get_eq_fail env c n dg hmiss hch hd hfail]
  refine ⟨rfl, ?_, by simp, by simp⟩
  simp [List.count_cons, List.count_nil]

/-- C7: on a successful build, a 1-channel grid gets a `SFLOAT_16` 3D
texture with swizzle `rrr1` and a 3-channel grid a `SFLOAT_16_16_16`
texture with swizzle `rgb1`; in both cases the sampler extend mode is set
to clamp-to-border. -/
theorem C7_texture_format_swizzle (env : Backend) (c : VolumeBatchCache)
    (n : Nat) (dg : DenseFloatVolumeGrid)
    (hmiss : c.grids.find? (gridNamePred env) = none)
    (hd : env.denseFloats = some dg)
    (hok : env.texCreateOk dg.resolution = true) :
    (env.channels = 1 →
      (volume_grid_cache_get env c n).1.texture = some n ∧
      Event.texCreate3d n TextureFormat.SFLOAT_16 dg.resolution ∈
        (volume_grid_cache_get env c n).2.2.2 ∧
      Event.swizzleSet n "rrr1" ∈ (volume_grid_cache_get env c n).2.2.2 ∧
      Event.extendModeSet n ExtendMode.clampToBorder ∈
        (volume_grid_cache_get env c n).2.2.2) ∧
    (env.channels = 3 →
      (volume_grid_cache_get env c n).1.texture = some n ∧
      Event.texCreate3d n TextureFormat.SFLOAT_16_16_16 dg.resolution ∈
        (volume_grid_cache_get env c n).2.2.2 ∧
      Event.swizzleSet n "rgb1" ∈ (volume_grid_cache_get env c n).2.2.2 ∧
      Event.extendModeSet n ExtendMode.clampToBorder ∈
        (volume_grid_cache_get env c n).2.2.2) := by
  constructor
  · intro h1
    rw [grid_get_eq_ok env c n dg hmiss (Or.inl h1) hd hok]
    simp [h1]
  · intro h3
    rw [grid_get_eq_ok env c n dg hmiss (Or.inr h3) hd hok]
    simp [h3]

/-- C8: with wireframe display mode "none",
`DRW_volume_batch_cache_get_wireframes_face` returns null immediately,
with the volume (even an absent or dirty cache) unchanged and an empty
trace — no backend call, no validation, no traversal. -/
theorem C8_wireframe_mode_none (env : Backend) (v : Volume) (n : Nat)
    (h : v.display.wireframe_type = VolumeWireframeType.NONE) :
    DRW_volume_batch_cache_get_wireframes_face env v n = (none, v, n, []) := by
  unfold DRW_volume_batch_cache_get_wireframes_face
  rw [h]
  simp

lemma grid_get_mem (env : Backend) (c : VolumeBatchCache) (n : Nat) :
    (volume_grid_cache_get env c n).1 ∈
      (volume_grid_cache_get env c n).2.1.grids := by
  cases hfind : c.grids.find? (gridNamePred env) with
  | some g =>
    rw [grid_get_eq_hit env c n g hfind]
    exact List.mem_of_find?_eq_some hfind
  | none =>
    obtain ⟨hcache, -⟩ := grid_get_miss_shape env c n hfind
    rw [hcache]
    simp

/-- C1 (amended): the internal materializer `volume_grid_cache_get`
always hands back the cached or newly appended entry, but the exposed
`DRW_volume_batch_cache_get_grid` filters on the texture: it returns null
exactly when the entry's texture is null and the entry itself otherwise;
the entry stays in the cache either way, so nullity of the returned
pointer is the only error signal. -/
theorem C1_get_grid_null_filter (env : Backend) (v : Volume) (n : Nat) :
    ((DRW_volume_batch_cache_get_grid env v n).1 = none ↔
      (volume_grid_cache_get env (volume_batch_cache_get v).1 n).1.texture =
        none) ∧
    ((volume_grid_cache_get env (volume_batch_cache_get v).1 n).1.texture ≠
        none →
      (DRW_volume_batch_cache_get_grid env v n).1 =
        some (volume_grid_cache_get env (volume_batch_cache_get v).1 n).1) ∧
    (volume_grid_cache_get env (volume_batch_cache_get v).1 n).1 ∈
      ((DRW_volume_batch_cache_get_grid env v n).2.1.batch_cache.getD
        emptyCache).grids := by
  unfold DRW_volume_batch_cache_get_grid
  dsimp only
  refine ⟨?_, ?_, ?_⟩
  · cases htex :
        (volume_grid_cache_get env (volume_batch_cache_get v).1 n).1.texture <;>
      simp [htex]
  · intro hne
    cases htex :
        (volume_grid_cache_get env (volume_batch_cache_get v).1 n).1.texture with
    | none => exact absurd htex hne
    | some t => simp [htex]
  · simpa using grid_get_mem env (volume_batch_cache_get v).1 n

/-- C10 (amended): when the cache exists, `DRW_volume_batch_cache_dirty_tag`
with `BKE_VOLUME_BATCH_DIRTY_ALL` sets the dirty flag and any other
reason code trips the assertion without changing the volume; when the
cache is absent the call returns with no effect for any reason. -/
theorem C10_dirty_tag_behavior (v : Volume) (c : VolumeBatchCache)
    (hc : v.batch_cache = some c) (mode : Int) :
    (mode = BKE_VOLUME_BATCH_DIRTY_ALL →
      DRW_volume_batch_cache_dirty_tag v mode =
        ({ v with batch_cache := some { c with is_dirty := true } }, [])) ∧
    (mode ≠ BKE_VOLUME_BATCH_DIRTY_ALL →
      DRW_volume_batch_cache_dirty_tag v mode = (v, [Event.assertFail])) := by
  unfold DRW_volume_batch_cache_dirty_tag
  rw [hc]
  dsimp only
  constructor
  · intro h
    simp [h]
  · intro h
    rw [if_neg (by simpa using h)]

lemma wireframes_cached (env : Backend) (v : Volume) (c : VolumeBatchCache)
    (n : Nat) (hw : v.display.wireframe_type ≠ VolumeWireframeType.NONE)
    (hc : v.batch_cache = some c) (hclean : c.is_dirty = false)
    (b : GPUBatch) (hb : c.face_wire.batch = some b) :
    DRW_volume_batch_cache_get_wireframes_face env v n = (some b, v, n, []) := by
  have hval : volume_batch_cache_valid v = true := by
    unfold volume_batch_cache_valid
    rw [hc]
    simp [hclean]
  have hgot : volume_batch_cache_get v = (c, v, []) := by
    unfold volume_batch_cache_get
    rw [validate_of_valid v hval]
    simp [hc]
  unfold DRW_volume_batch_cache_get_wireframes_face
  rw [if_neg (by simp [hw])]
  rw [hgot]
  dsimp only
  rw [hb]

/-- The position+constant-normal vertex buffer the wireframe callback
builds from the backend-supplied vertices. -/
def wireVertBuf (env : Backend) (n : Nat) : VertBuf :=
  { id := n
    content := VertBufContent.posNor env.hqNormals env.wireVerts (1, 0, 0) }

/-- The wire-pattern vertex buffer, sized to the vertex count. -/
def wirePatternBuf (env : Backend) (n : Nat) : VertBuf :=
  { id := n + 1, content := VertBufContent.wiredata env.wireVerts.length }

/-- The line-primitive batch the wireframe callback builds in mode
"lines": it owns an index buffer listing the backend-supplied edges in
order and carries the position buffer plus the wire-pattern buffer. -/
def wireLinesBatch (env : Backend) (n : Nat) : GPUBatch :=
  { id := n + 2, prim := GPUPrimType.lines
    verts := [wireVertBuf env n, wirePatternBuf env n]
    ibo := some { lineVerts := env.wireEdges }
    ownsIbo := true }

/-- The cache state after the wireframe callback stored its results. -/
def wireBuiltCache (env : Backend) (c : VolumeBatchCache) (n : Nat) :
    VolumeBatchCache :=
  { c with face_wire := { pos_nor_in_order := some (wireVertBuf env n)
                          batch := some (wireLinesBatch env n) } }

/-- C9: with wireframe mode "lines", a valid cache with no wireframe batch
yet and an active grid, the wireframe getter builds a line-primitive
batch whose index buffer lists exactly the traversal's edges in order and
whose vertex buffer holds exactly the traversal's vertex positions (plus
the wire-pattern buffer sized to the vertex count); a second call returns
the very same batch instance with no state change and an empty trace. -/
theorem C9_wireframe_lines_build (env : Backend) (v : Volume)
    (c : VolumeBatchCache) (n : Nat)
    (hw : v.display.wireframe_type = VolumeWireframeType.LINES)
    (hc : v.batch_cache = some c)
    (hclean : c.is_dirty = false)
    (hnob : c.face_wire.batch = none)
    (hag : env.activeGrid = true) :
    DRW_volume_batch_cache_get_wireframes_face env v n =
      (some (wireLinesBatch env n),
       { v with batch_cache := some (wireBuiltCache env c n) }, n + 3,
       [Event.activeGridGet, Event.wireTraverse, Event.vertbufCreate n,
        Event.vertbufCreate (n + 1), Event.batchCreate (n + 2)]) ∧
    DRW_volume_batch_cache_get_wireframes_face env
        { v with batch_cache := some (wireBuiltCache env c n) } (n + 3) =
      (some (wireLinesBatch env n),
       { v with batch_cache := some (wireBuiltCache env c n) }, n + 3, []) := by
  have hval : volume_batch_cache_valid v = true := by
    unfold volume_batch_cache_valid
    rw [hc]
    simp [hclean]
  have hgot : volume_batch_cache_get v = (c, v, []) := by
    unfold volume_batch_cache_get
    rw [validate_of_valid v hval]
    simp [hc]
  constructor
  · unfold DRW_volume_batch_cache_get_wireframes_face
    rw [hw, if_neg (by decide)]
    rw [hgot]
    dsimp only
    rw [hnob]
    dsimp only
    rw [hag, if_pos rfl]
    unfold drw_volume_wireframe_cb
    rw [hc, hw]
    simp [wireBuiltCache, wireLinesBatch, wireVertBuf, wirePatternBuf]
  · exact wireframes_cached env
      { v with batch_cache := some (wireBuiltCache env c n) }
      (wireBuiltCache env c n) (n + 3) (by simp [hw])
      rfl (by simpa [wireBuiltCache] using hclean)
      (wireLinesBatch env n) (by simp [wireBuiltCache])


/-! ### Concrete fixtures for counterexamples and witnesses -/

/-- A volume with no batch cache and wireframe display mode "none". -/
def freshVolume : Volume :=
  { batch_cache := none
    display := { wireframe_type := VolumeWireframeType.NONE } }

/-- A backend serving a 2-channel grid named "velocity". -/
def chan2Backend : Backend :=
  { gridName := "velocity", channels := 2, denseFloats := none
    texCreateOk := fun _ => true, invert := fun m => m, activeGrid := false
    wireVerts := [], wireEdges := [], hqNormals := false }

/-- C1 counterexample: on a fresh volume and a 2-channel grid, the exposed
`DRW_volume_batch_cache_get_grid` returns null — not the grid entry —
even though the entry (with null texture) was appended to the cache, so
the operation does not return the entry itself as the claim states. -/
theorem C1_counterexample :
    (DRW_volume_batch_cache_get_grid chan2Backend freshVolume 0).1 = none ∧
    ((DRW_volume_batch_cache_get_grid chan2Backend
        freshVolume 0).2.1.batch_cache.getD emptyCache).grids =
      [{ name := "velocity", texture := none
         texture_to_object := mat4Zero, object_to_texture := mat4Zero }] := by
  constructor <;> rfl

/-- C10 counterexample: on a volume whose cache is absent, an unrecognized
reason code (5) neither sets any dirty flag nor trips the assertion — the
call is a silent no-op, contrary to the claim's universal quantification
over volume objects. -/
theorem C10_counterexample :
    DRW_volume_batch_cache_dirty_tag freshVolume 5 = (freshVolume, []) ∧
    Event.assertFail ∉ (DRW_volume_batch_cache_dirty_tag freshVolume 5).2 := by
  exact ⟨rfl, by simp [DRW_volume_batch_cache_dirty_tag, freshVolume]⟩

/-- A dirty cache populated with two grid entries (one with a texture),
a wireframe vertex buffer and batch, and a selection batch. -/
def sampleDirtyCache : VolumeBatchCache :=
  { grids := [{ name := "density", texture := some 11
                texture_to_object := mat4Zero, object_to_texture := mat4Zero },
              { name := "flame", texture := none
                texture_to_object := mat4Zero, object_to_texture := mat4Zero }]
    face_wire := { pos_nor_in_order := some
                     { id := 12, content := VertBufContent.wiredata 4 }
                   batch := some
                     { id := 13, prim := GPUPrimType.lines, verts := []
                       ibo := none, ownsIbo := false } }
    selection_surface := some
      { id := 14, prim := GPUPrimType.tris, verts := []
        ibo := none, ownsIbo := false }
    is_dirty := true }

/-- A volume owning `sampleDirtyCache`. -/
def sampleDirtyVolume : Volume :=
  { batch_cache := some sampleDirtyCache
    display := { wireframe_type := VolumeWireframeType.LINES } }

/-- A volume owning a clean, empty cache. -/
def sampleCleanVolume : Volume :=
  { batch_cache := some emptyCache
    display := { wireframe_type := VolumeWireframeType.LINES } }

/-- A backend serving a 1-channel grid whose dense resolution exceeds the
device's 3D texture limit, so texture creation fails. -/
def failTexBackend : Backend :=
  { gridName := "density", channels := 1
    denseFloats := some { resolution := (5000, 4, 4), voxels := 77
                          texture_to_object := mat4Zero }
    texCreateOk := fun r =>
      decide (r.1 ≤ 2048 ∧ r.2.1 ≤ 2048 ∧ r.2.2 ≤ 2048)
    invert := fun m => m, activeGrid := false
    wireVerts := [], wireEdges := [], hqNormals := false }

/-- A backend serving a 3-channel grid that builds successfully. -/
def okTexBackend : Backend :=
  { gridName := "color", channels := 3
    denseFloats := some { resolution := (16, 16, 16), voxels := 9
                          texture_to_object := mat4Zero }
    texCreateOk := fun _ => true
    invert := fun m => m, activeGrid := false
    wireVerts := [], wireEdges := [], hqNormals := false }

/-- A backend with an active grid whose wireframe traversal supplies
4 vertices and 3 edges. -/
def wireBackend : Backend :=
  { gridName := "density", channels := 1, denseFloats := none
    texCreateOk := fun _ => true, invert := fun m => m, activeGrid := true
    wireVerts := [(0, 0, 0), (1, 0, 0), (0, 1, 0), (0, 0, 1)]
    wireEdges := [(0, 1), (1, 2), (2, 3)], hqNormals := false }

/-- A volume in wireframe mode "lines" owning a clean, empty cache. -/
def wireVolume : Volume :=
  { batch_cache := some emptyCache
    display := { wireframe_type := VolumeWireframeType.LINES } }

/-! ### Witnesses -/

/-- Witness for C1 at a concrete input. -/
theorem C1_witness :
    ((DRW_volume_batch_cache_get_grid chan2Backend freshVolume 0).1 = none ↔
      (volume_grid_cache_get chan2Backend
        (volume_batch_cache_get freshVolume).1 0).1.texture = none) ∧
    ((volume_grid_cache_get chan2Backend
        (volume_batch_cache_get freshVolume).1 0).1.texture ≠ none →
      (DRW_volume_batch_cache_get_grid chan2Backend freshVolume 0).1 =
        some (volume_grid_cache_get chan2Backend
          (volume_batch_cache_get freshVolume).1 0).1) ∧
    (volume_grid_cache_get chan2Backend
        (volume_batch_cache_get freshVolume).1 0).1 ∈
      ((DRW_volume_batch_cache_get_grid chan2Backend
          freshVolume 0).2.1.batch_cache.getD emptyCache).grids :=
  C1_get_grid_null_filter chan2Backend freshVolume 0

/-- Witness for C2 at a concrete input. -/
theorem C2_witness :
    (DRW_volume_batch_cache_validate sampleDirtyVolume).1.batch_cache =
      some emptyCache ∧
    (∀ g ∈ sampleDirtyCache.grids, ∀ t, g.texture = some t →
        Event.freeTexture t ∈
          (DRW_volume_batch_cache_validate sampleDirtyVolume).2) ∧
    (∀ vb, sampleDirtyCache.face_wire.pos_nor_in_order = some vb →
        Event.discardVertBuf vb.id ∈
          (DRW_volume_batch_cache_validate sampleDirtyVolume).2) ∧
    (∀ b, sampleDirtyCache.face_wire.batch = some b →
        Event.discardBatch b.id ∈
          (DRW_volume_batch_cache_validate sampleDirtyVolume).2) ∧
    (∀ b, sampleDirtyCache.selection_surface = some b →
        Event.discardBatch b.id ∈
          (DRW_volume_batch_cache_validate sampleDirtyVolume).2) :=
  C2_validate_dirty_clears sampleDirtyVolume sampleDirtyCache rfl rfl

/-- Witness for C4 at a concrete input. -/
theorem C4_witness :
    volume_grid_cache_get chan2Backend
        (volume_grid_cache_get chan2Backend emptyCache 0).2.1
        (volume_grid_cache_get chan2Backend emptyCache 0).2.2.1 =
      ((volume_grid_cache_get chan2Backend emptyCache 0).1,
       (volume_grid_cache_get chan2Backend emptyCache 0).2.1,
       (volume_grid_cache_get chan2Backend emptyCache 0).2.2.1, []) ∧
    ((volume_grid_cache_get chan2Backend
        emptyCache 0).2.1.grids.map DRWVolumeGrid.name).Nodup :=
  C4_grid_get_memoized chan2Backend emptyCache 0 (by decide)

/-- Witness for C5 at a concrete input. -/
theorem C5_witness :
    Event.denseFloatsCall ∉
      (volume_grid_cache_get chan2Backend emptyCache 0).2.2.2 ∧
    (emptyCache.grids.find? (gridNamePred chan2Backend) = none →
      (volume_grid_cache_get chan2Backend emptyCache 0).1.texture = none ∧
      (volume_grid_cache_get chan2Backend emptyCache 0).1 ∈
        (volume_grid_cache_get chan2Backend emptyCache 0).2.1.grids) :=
  C5_unsupported_channels chan2Backend emptyCache 0 (by decide) (by decide)

/-- Witness for C6 at a concrete input. -/
theorem C6_witness :
    (volume_grid_cache_get failTexBackend emptyCache 0).1.texture = none ∧
    (volume_grid_cache_get failTexBackend emptyCache 0).2.2.2.count
        (Event.memFreeVoxels 77) +
      (volume_grid_cache_get failTexBackend emptyCache 0).2.2.2.count
        (Event.denseGridClear 77) = 1 ∧
    Event.printError ∈
      (volume_grid_cache_get failTexBackend emptyCache 0).2.2.2 ∧
    (volume_grid_cache_get failTexBackend emptyCache 0).1 ∈
      (volume_grid_cache_get failTexBackend emptyCache 0).2.1.grids :=
  C6_texture_creation_failure failTexBackend emptyCache 0
    { resolution := (5000, 4, 4), voxels := 77
      texture_to_object := mat4Zero }
    (Or.inl rfl) rfl rfl (by decide)

/-- Witness for C7 at a concrete input. -/
theorem C7_witness :
    (okTexBackend.channels = 1 →
      (volume_grid_cache_get okTexBackend emptyCache 0).1.texture = some 0 ∧
      Event.texCreate3d 0 TextureFormat.SFLOAT_16 (16, 16, 16) ∈
        (volume_grid_cache_get okTexBackend emptyCache 0).2.2.2 ∧
      Event.swizzleSet 0 "rrr1" ∈
        (volume_grid_cache_get okTexBackend emptyCache 0).2.2.2 ∧
      Event.extendModeSet 0 ExtendMode.clampToBorder ∈
        (volume_grid_cache_get okTexBackend emptyCache 0).2.2.2) ∧
    (okTexBackend.channels = 3 →
      (volume_grid_cache_get okTexBackend emptyCache 0).1.texture = some 0 ∧
      Event.texCreate3d 0 TextureFormat.SFLOAT_16_16_16 (16, 16, 16) ∈
        (volume_grid_cache_get okTexBackend emptyCache 0).2.2.2 ∧
      Event.swizzleSet 0 "rgb1" ∈
        (volume_grid_cache_get okTexBackend emptyCache 0).2.2.2 ∧
      Event.extendModeSet 0 ExtendMode.clampToBorder ∈
        (volume_grid_cache_get okTexBackend emptyCache 0).2.2.2) :=
  C7_texture_format_swizzle okTexBackend emptyCache 0
    { resolution := (16, 16, 16), voxels := 9
      texture_to_object := mat4Zero }
    rfl rfl rfl

/-- Witness for C8 at a concrete input. -/
theorem C8_witness :
    DRW_volume_batch_cache_get_wireframes_face chan2Backend freshVolume 0 =
      (none, freshVolume, 0, []) :=
  C8_wireframe_mode_none chan2Backend freshVolume 0 rfl

/-- Witness for C9 at a concrete input: 4 vertices, 3 edges. -/
theorem C9_witness :
    DRW_volume_batch_cache_get_wireframes_face wireBackend wireVolume 0 =
      (some (wireLinesBatch wireBackend 0),
       { wireVolume with
           batch_cache := some (wireBuiltCache wireBackend emptyCache 0) },
       3,
       [Event.activeGridGet, Event.wireTraverse, Event.vertbufCreate 0,
        Event.vertbufCreate 1, Event.batchCreate 2]) ∧
    DRW_volume_batch_cache_get_wireframes_face wireBackend
        { wireVolume with
            batch_cache := some (wireBuiltCache wireBackend emptyCache 0) }
        3 =
      (some (wireLinesBatch wireBackend 0),
       { wireVolume with
           batch_cache := some (wireBuiltCache wireBackend emptyCache 0) },
       3, []) :=
  C9_wireframe_lines_build wireBackend wireVolume emptyCache 0
    rfl rfl rfl rfl rfl

/-- Witness for C10 at a concrete input. -/
theorem C10_witness :
    ((0 : Int) = BKE_VOLUME_BATCH_DIRTY_ALL →
      DRW_volume_batch_cache_dirty_tag sampleCleanVolume 0 =
        ({ sampleCleanVolume with
             batch_cache := some { emptyCache with is_dirty := true } },
         [])) ∧
    ((0 : Int) ≠ BKE_VOLUME_BATCH_DIRTY_ALL →
      DRW_volume_batch_cache_dirty_tag sampleCleanVolume 0 =
        (sampleCleanVolume, [Event.assertFail])) :=
  C10_dirty_tag_behavior sampleCleanVolume emptyCache rfl 0

end DrawVolume
